import Mathlib

/-!
Verification development for the anymail ESP adapter layer.

The Python sources under scrutiny are shallowly embedded below:

* JSON-like payload dictionaries become `JVal` / `JObj` (ordered association
  lists, mirroring the insertion-ordered Python `dict`);
* each backend's payload accumulator becomes a structure holding the fields
  the relevant methods touch;
* fallible code returns `Except PyErr _`, where `PyErr` distinguishes the
  Python exception classes the sources can raise.

Where a definition cannot be read off the examined sources (because the
module is not among them), its doc comment starts with "Modelled from the
spec:" and names the missing piece.
-/

namespace Anymail

/-- Error outcomes of the embedded Python code: each constructor stands for an
exception class the examined sources can raise (KeyError, TypeError,
ValueError, OverflowError, AssertionError, NotImplementedError, NameError,
AnymailRequestsAPIError in its several flavours, binascii.Error,
AnymailWebhookValidationFailure). -/
inductive PyErr where
  | keyErr (k : String)
  | typeErr
  | valueErr
  | overflowErr
  | assertionErr
  | notImplementedErr
  | nameErr
  | apiErr
  | apiInvalidFormat
  | apiCountMismatch (expected actual : Nat)
  | binasciiErr
  | validationFailure
  deriving DecidableEq, Repr

/-- JSON-like values, the contents of the payload dictionaries the backends
build (`self.data`) and of parsed provider responses. Numbers are modelled as
integers (the examined payload code never manipulates fractional numbers). -/
inductive JVal where
  | jnull
  | jbool (b : Bool)
  | jnum (n : Int)
  | jstr (s : String)
  | jarr (elems : List JVal)
  | jobj (fields : List (String × JVal))

/-- An insertion-ordered string-keyed dictionary, as Python `dict` with
`JVal` values. Keys are unique in every dictionary produced by the embedded
operations (as in Python). -/
abbrev JObj := List (String × JVal)

/-- Python truthiness of a JSON value (`bool(v)`): None, False, 0, "", [] and
empty mappings are falsy. -/
def JVal.truthy : JVal → Bool
  | .jnull => false
  | .jbool b => b
  | .jnum n => n != 0
  | .jstr s => s != ""
  | .jarr elems => !elems.isEmpty
  | .jobj fields => !fields.isEmpty

/-- Dictionary lookup `d.get(key)` / `d[key]` (first matching key; keys are
unique in a Python dict). Polymorphic in the value type. -/
def alookup {α : Type} : List (String × α) → String → Option α
  | [], _ => none
  | (k, v) :: rest, key => if k = key then some v else alookup rest key

/-- Key-membership test `key in d`. -/
def ahas {α : Type} (d : List (String × α)) (k : String) : Bool :=
  (alookup d k).isSome

/-- Dictionary assignment `d[key] = v`: replaces the value in place when the
key is present (keeping its position, as Python dicts do), else appends. -/
def aset {α : Type} : List (String × α) → String → α → List (String × α)
  | [], key, v => [(key, v)]
  | (k, w) :: rest, key, v =>
      if k = key then (k, v) :: rest else (k, w) :: aset rest key v

/-- Python `d.update(e)`: assign every entry of `e` into `d`, in `e`'s order. -/
def aupdate {α : Type} (d e : List (String × α)) : List (String × α) :=
  e.foldl (fun acc kv => aset acc kv.1 kv.2) d

/-- Key removal, the effect of `d.pop(key, default)` on `d` (removes the entry
when present; a Python dict holds the key at most once). -/
def adelete {α : Type} (d : List (String × α)) (k : String) : List (String × α) :=
  d.filter (fun kv => kv.1 ≠ k)

/-- Helper for the substring test: does `needle` occur in `hay` (as character
lists)? -/
def containsSub (needle : List Char) : List Char → Bool
  | [] => needle.isEmpty
  | c :: rest => needle.isPrefixOf (c :: rest) || containsSub needle rest

/-- Python's substring test `needle in hay`. -/
def substrOccurs (needle hay : String) : Bool :=
  containsSub needle.data hay.data

/-- Python `str(n).startswith("4")` for a natural number: the first character
of the decimal representation is the digit 4. -/
def natStrStartsWith4 (n : Nat) : Bool :=
  match (toString n).data with
  | [] => false
  | c :: _ => c = '4'

/-- Modelled from the spec: an email address record (spec section 3,
"EmailAddress") with its addr_spec and display name. The examined backends
receive these as `anymail.utils.ParsedEmail` / `EmailAddress` objects
(that module is not among the examined sources); `email` is the bare
addr_spec (`ParsedEmail.email` / `EmailAddress.addr_spec`) and `name` the
display name. -/
structure EmailAddr where
  email : String
  name : String
  deriving DecidableEq, Repr

/-- Modelled from the spec: the RFC 5322 formatted form of an address
(`str(email)` on a ParsedEmail), "name <addr>" when a display name is
present. Quoting of display names containing specials and RFC 2047 encoding
are not modelled; no claim below depends on this string's exact content,
only on which payload key it is stored under. -/
def EmailAddr.address (a : EmailAddr) : String :=
  if a.name = "" then a.email else a.name ++ " <" ++ a.email ++ ">"

/-! ### Mailjet payload (src/anymail/backends/mailjet.py)

`MailjetPayload` keeps the recipients and the per-recipient merge data out of
`self.data` until `serialize_data`, which calls `_finish_recipients`.
`self.recipients` is a dict `{"to"/"cc"/"bcc": [emails]}` whose keys exist
exactly when `add_recipient` was called for that type, i.e. exactly when the
corresponding list is non-empty; it is modelled as the three lists directly,
with `"cc" in self.recipients` becoming `cc ≠ []`. -/

/-- The late-bound state of a `MailjetPayload` when `serialize_data` runs:
the accumulated `self.data`, the three recipient lists, and
`self.merge_data` (None until `set_merge_data` is called). -/
structure MailjetPayloadState where
  data : JObj
  recipientsTo : List EmailAddr
  recipientsCc : List EmailAddr
  recipientsBcc : List EmailAddr
  merge_data : Option (List (String × JVal))

/-- Truthiness of `self.merge_data` (`if self.merge_data:`): false for None
and for an empty mapping. -/
def mergeDataTruthy : Option (List (String × JVal)) → Bool
  | none => false
  | some md => !md.isEmpty

/-- One entry of the Mailjet `Recipients` array
(`_finish_recipients_with_vars` loop body): the dict
`{"Email": ..., "Name": ..., "Vars": merge_data.get(email)}` with falsy
values stripped (`{k: v for k, v in recipient.items() if v}`); a missing
merge-data key yields `None` (here `jnull`), which is falsy and stripped. -/
def mailjetRecipient (md : List (String × JVal)) (e : EmailAddr) : JVal :=
  .jobj (([("Email", JVal.jstr e.email),
           ("Name", JVal.jstr e.name),
           ("Vars", (alookup md e.email).getD .jnull)]).filter
          (fun kv => kv.2.truthy))

/-- `MailjetPayload._finish_recipients_with_vars`: asserts that no literal
Cc/Bcc headers were stored, then stores the `Recipients` substitution array.
Reading `self.recipients["to"]` raises KeyError when no to-recipient was ever
added (the "to" key is then absent). `merge_data or {}` maps a falsy
merge_data to the empty dict. -/
def mailjetFinishRecipientsWithVars (s : MailjetPayloadState) : Except PyErr JObj :=
  if ahas s.data "Cc" || ahas s.data "Bcc" then .error .assertionErr
  else if s.recipientsTo.isEmpty then .error (.keyErr "to")
  else
    let md := s.merge_data.getD []
    .ok (aset s.data "Recipients" (.jarr (s.recipientsTo.map (mailjetRecipient md))))

/-- One iteration of `_finish_recipients_single`'s loop over
`self.recipients.items()`: when the recipient list for a type is non-empty
(i.e. its key exists in the recipients dict), store the comma-joined literal
header under the capitalized type name. -/
def mailjetAddRecipientHeader (d : JObj) (typName : String)
    (emails : List EmailAddr) : JObj :=
  if emails.isEmpty then d
  else aset d typName (.jstr (String.intercalate ", " (emails.map EmailAddr.address)))

/-- `MailjetPayload._finish_recipients_single`: asserts that no `Recipients`
array was stored, raises NotImplementedError when merge data is set
("Cannot set merge data with bcc/cc"), then writes one comma-joined literal
header per non-empty recipient list, under the capitalized type name
(`"to".capitalize()` is `"To"`, etc.; `self.recipients.items()` iterates in
to, cc, bcc insertion order). -/
def mailjetFinishRecipientsSingle (s : MailjetPayloadState) : Except PyErr JObj :=
  if ahas s.data "Recipients" then .error .assertionErr
  else if mergeDataTruthy s.merge_data then .error .notImplementedErr
  else
    .ok (mailjetAddRecipientHeader
          (mailjetAddRecipientHeader
            (mailjetAddRecipientHeader s.data "To" s.recipientsTo)
            "Cc" s.recipientsCc)
          "Bcc" s.recipientsBcc)

/-- `MailjetPayload._finish_recipients`: choose the recipient wire shape.
`"cc" in self.recipients or "bcc" in self.recipients` means the cc or bcc
list is non-empty. `serialize_data` runs this before anything else (in
particular before any HTTP activity), so an error raised here aborts the
send with no request issued. -/
def mailjetFinishRecipients (s : MailjetPayloadState) : Except PyErr JObj :=
  if !s.recipientsCc.isEmpty || !s.recipientsBcc.isEmpty then mailjetFinishRecipientsSingle s
  else mailjetFinishRecipientsWithVars s

/-- `MailjetPayload.set_esp_extra`: `self.data.update(extra)` — a shallow,
top-level dict update. -/
def mailjetSetEspExtra (data extra : JObj) : JObj :=
  aupdate data extra

/-- The canonical C4 scenario: `to=["a@x.com", "b@x.com"]`, no cc/bcc,
`merge_data={"a@x.com": {"name": "Alice"}}`. -/
def mailjetScenarioState : MailjetPayloadState :=
  { data := [],
    recipientsTo := [⟨"a@x.com", ""⟩, ⟨"b@x.com", ""⟩],
    recipientsCc := [],
    recipientsBcc := [],
    merge_data := some [("a@x.com", .jobj [("name", .jstr "Alice")])] }


/-! ### MailPace backend (src/anymail/backends/mailpace.py) -/

/-- One `AnymailRecipientStatus`: provider message id (possibly absent) and
one of the canonical status strings. -/
structure RecipStatus where
  message_id : Option String
  status : String
  deriving DecidableEq, Repr

/-- The per-recipient status dictionary built by `parse_recipient_status`,
keyed by addr_spec. The source uses a `CaseInsensitiveCasePreservingDict`;
since every update uses the very same `recip.addr_spec` strings the dict was
initialized with, plain string keys model it faithfully here. -/
abbrev StatusMap := List (String × RecipStatus)

/-- The parts of a parsed MailPace send-response JSON body that
`EmailBackend.parse_recipient_status` reads: the HTTP status code, the
optional top-level "status" and "id" fields and the optional "errors"
object (a mapping from recipient field name to a list of error message
strings). -/
structure MailPaceResponse where
  status_code : Nat
  respStatus : Option String
  respId : Option String
  errors : Option (List (String × List String))
  deriving DecidableEq, Repr

/-- One step of the MailPace error-message classification (the inner
`for error_message in error_messages` body): an error message naming an
undefined field or an invalid address marks the recipient "invalid", a
blocked address marks it "rejected", exceeding the maximum volume marks it
"invalid", and any other message leaves the current status unchanged. -/
def mailpaceClassify (cur : RecipStatus) (msg : String) : RecipStatus :=
  if substrOccurs "undefined field" msg || substrOccurs "is invalid" msg then
    ⟨none, "invalid"⟩
  else if substrOccurs "contains a blocked address" msg then
    ⟨none, "rejected"⟩
  else if substrOccurs "number of email addresses exceeds maximum volume" msg then
    ⟨none, "invalid"⟩
  else cur

/-- The initial per-recipient status dictionary
(`{recip.addr_spec: unknown_status for recip in payload.to_cc_and_bcc_emails}`):
every recipient maps to `(None, "unknown")`. -/
def mailpaceInitStatuses (recips : List EmailAddr) : StatusMap :=
  recips.foldl (fun m r => aset m r.email ⟨none, "unknown"⟩) []

/-- The inner `for email in payload.to_cc_and_bcc_emails` loop of the error
branch, for one field's error-message list: assigns to EVERY recipient the
classification the messages fold to, starting from that recipient's current
status. -/
def mailpaceApplyMessages (msgs : List String) (recips : List EmailAddr)
    (m : StatusMap) : StatusMap :=
  recips.foldl (fun m2 r =>
    let cur := (alookup m2 r.email).getD ⟨none, "unknown"⟩
    aset m2 r.email (msgs.foldl mailpaceClassify cur)) m

/-- The `for field in ["to", "cc", "bcc"]` loop of the error branch over an
arbitrary field list: fields absent from the "errors" object are skipped,
each present field's message list is applied to every recipient. -/
def mailpaceApplyFields (errs : List (String × List String))
    (recips : List EmailAddr) (fieldsL : List String) (m : StatusMap) : StatusMap :=
  fieldsL.foldl (fun m1 field =>
    match alookup errs field with
    | none => m1
    | some msgs => mailpaceApplyMessages msgs recips m1) m

/-- The error branch's whole field loop, over `["to", "cc", "bcc"]`. -/
def mailpaceApplyErrors (errs : List (String × List String))
    (recips : List EmailAddr) (m : StatusMap) : StatusMap :=
  mailpaceApplyFields errs recips ["to", "cc", "bcc"] m

/-- `EmailBackend.parse_recipient_status` for MailPace. `recips` is
`payload.to_cc_and_bcc_emails` (to, then cc, then bcc, in `set_recipients`
order). The backend's `raise_for_status` override lets status 400 through to
this parser; it is only ever invoked for 2xx or 400 responses. Notes:
status codes other than 200 and 4xx leave `status_msg` unbound, a Python
NameError (`nameErr`); a 200 body without "status"/"id" raises the
"Invalid MailPace API response format" APIError (`apiInvalidFormat`); a 400
body without "errors" raises a plain APIError (`apiErr`). For each of the
"to"/"cc"/"bcc" fields present in "errors", the classification loop
(`mailpaceApplyMessages`) runs over ALL of `payload.to_cc_and_bcc_emails`,
not just the recipients of that field. (The source's trailing
`else: continue` on that loop never does anything, as the loop has no
`break`.) -/
def mailpaceParseRecipientStatus (recips : List EmailAddr) (resp : MailPaceResponse) :
    Except PyErr StatusMap := do
  let init : StatusMap := mailpaceInitStatuses recips
  let (status_msg, idv) ←
    if resp.status_code = 200 then
      match resp.respStatus, resp.respId with
      | some s, some i => Except.ok (s, some i)
      | _, _ => Except.error PyErr.apiInvalidFormat
    else if natStrStartsWith4 resp.status_code then
      Except.ok ("error", none)
    else
      Except.error PyErr.nameErr
  if status_msg = "queued" then
    return recips.foldl (fun m r => aset m r.email ⟨idv, "queued"⟩) init
  else if status_msg = "error" then
    match resp.errors with
    | none => Except.error PyErr.apiErr
    | some errs => return mailpaceApplyErrors errs recips init
  else
    return init

/-- Modelled from the spec: the outcome the calling backend derives from the
per-recipient status map (spec section 7) — when the send nominally succeeded
at the transport level but every recipient ended up with a rejecting status
("failed", "invalid" or "rejected"), the distinguished RecipientsRefused
error is raised; otherwise the mixed/successful status map is returned. The
code doing this lives in the shared base backend, which is not among the
examined sources. -/
inductive SendOutcome where
  | sent (statuses : StatusMap)
  | recipientsRefused (statuses : StatusMap)
  | raised (e : PyErr)
  deriving DecidableEq, Repr

/-- Modelled from the spec: the rejecting statuses that make the whole send a
"recipients refused" condition. -/
def refusedStatuses : List String := ["failed", "invalid", "rejected"]

/-- Modelled from the spec: classify a parse result as `SendOutcome` (spec
section 7: "every recipient was rejected" becomes RecipientsRefused). -/
def sendOutcome (res : Except PyErr StatusMap) : SendOutcome :=
  match res with
  | .error e => .raised e
  | .ok m =>
      if !m.isEmpty && m.all (fun kv => refusedStatuses.contains kv.2.status) then
        .recipientsRefused m
      else .sent m

/-- The state of a `MailPacePayload` that `set_esp_extra` and
`get_request_params` touch: the JSON body accumulator `self.data` and
`self.server_token` (initialized from the backend's configured token). -/
structure MailPacePayloadState where
  data : JObj
  server_token : JVal

/-- `MailPacePayload.set_esp_extra`: `self.data.update(extra)` followed by
`self.server_token = self.data.pop("server_token", self.server_token)` —
the special `server_token` key is removed from the body and replaces the
configured token. -/
def mailpaceSetEspExtra (s : MailPacePayloadState) (extra : JObj) : MailPacePayloadState :=
  let d := aupdate s.data extra
  { data := adelete d "server_token",
    server_token := (alookup d "server_token").getD s.server_token }

/-- `MailPacePayload.get_request_params`: the request headers, the payload's
constructor headers (Content-Type/Accept) plus
`headers["MailPace-Server-Token"] = self.server_token`. -/
def mailpaceRequestHeaders (s : MailPacePayloadState) : JObj :=
  aset [("Content-Type", JVal.jstr "application/json"),
        ("Accept", JVal.jstr "application/json")]
    "MailPace-Server-Token" s.server_token

/-- `MailPacePayload.serialize_data`: the JSON body is exactly `self.data`. -/
def mailpaceSerializeData (s : MailPacePayloadState) : JObj :=
  s.data

/-! ### Mailtrap backend (src/anymail/backends/mailtrap.py) -/

/-- The parts of a parsed Mailtrap send-response body that
`EmailBackend.parse_recipient_status` reads: `parsed_response.get("errors")`,
`parsed_response.get("success")` (both default to None, i.e. `jnull`, when
absent) and the "message_ids" array (absent when the body has no such key). -/
structure MailtrapResponse where
  errors : JVal
  success : JVal
  message_ids : Option (List String)

/-- `EmailBackend.parse_recipient_status` for Mailtrap. The recipient lists
are `payload.recipients_to/_cc/_bcc` (addr_specs). An errors field or a
falsy success field raises the "Unexpected API failure fields" APIError
(`apiErr`); a missing "message_ids" key raises the "Unexpected API response
format" APIError (`apiInvalidFormat`); a count mismatch raises the
"Expected N message_ids, got M" APIError (`apiCountMismatch`). On success
the source zips `recipients` with `message_ids` but builds every recipient's
status from `parsed_response["message_ids"][0]` (the zipped per-recipient id
is bound and then ignored), so every recipient receives the FIRST id. -/
def mailtrapParseRecipientStatus (useSandbox : Bool)
    (recipientsTo recipientsCc recipientsBcc : List String)
    (resp : MailtrapResponse) : Except PyErr StatusMap :=
  if resp.errors.truthy || !resp.success.truthy then .error .apiErr
  else
    match resp.message_ids with
    | none => .error .apiInvalidFormat
    | some mids =>
      let recipients := recipientsTo ++ recipientsCc ++ recipientsBcc
      let expected := if useSandbox then 1 else recipients.length
      let actual := mids.length
      if expected ≠ actual then .error (.apiCountMismatch expected actual)
      else
        let mids2 := if useSandbox then List.replicate expected (mids.headD "") else mids
        .ok ((recipients.zip mids2).map (fun p => (p.1, ⟨mids.head?, "sent"⟩)))

/-- Modelled from the spec: `anymail.utils.update_deep` (that module is not
among the examined sources) — recursively merge `other` into `dct`: when both
sides hold a nested mapping under the same key the mappings are merged
recursively, any other value (including sequences) replaces the old value
atomically. Used by `MailtrapPayload.set_esp_extra`. -/
def updateDeep (dct other : JObj) : JObj :=
  match other with
  | [] => dct
  | (k, v) :: rest =>
    match alookup dct k, v with
    | some (.jobj d), .jobj o => updateDeep (aset dct k (.jobj (updateDeep d o))) rest
    | _, _ => updateDeep (aset dct k v) rest
termination_by sizeOf other
decreasing_by
  all_goals simp_wf <;> omega

/-- The value `update_deep` stores for one key of `other`: when both the old
and the new value are nested mappings they are merged recursively, otherwise
the new value replaces the old atomically. -/
def deepMergedValue (old : Option JVal) (v : JVal) : JVal :=
  match old, v with
  | some (.jobj dsub), .jobj esub => .jobj (updateDeep dsub esub)
  | _, _ => v

/-- `MailtrapPayload.set_esp_extra`: `update_deep(self.data, extra)`. -/
def mailtrapSetEspExtra (data extra : JObj) : JObj :=
  updateDeep data extra

/-- `ResendPayload.set_esp_extra` (src/anymail/backends/resend.py):
`self.data.update(extra)` — a shallow, top-level dict update. -/
def resendSetEspExtra (data extra : JObj) : JObj :=
  aupdate data extra

/-! ### Unisender Go backend (src/anymail/backends/unisender_go.py) -/

/-- One entry of `self.data["recipients"]` as built by
`UnisenderGoPayload.set_recipients`: the recipient dicts
`{"email": addr_spec, "substitutions": {"to_name": display_name}}`. The
"substitutions" key is always present after `set_recipients` (and
`set_merge_data`'s `recipient.setdefault("substitutions", {})` would supply
an empty one otherwise), so it is a plain field here. -/
structure UniRecipient where
  email : String
  substitutions : JObj

/-- `UnisenderGoPayload.set_merge_data`: a no-op for falsy (empty) merge
data; otherwise, for each recipient already in the payload, replaces its
substitutions with `{**merge_data[recipient_email], **substitutions}` (the
merge-data entries first, existing substitutions overriding on key
collisions). The source subscripts `merge_data[recipient_email]` directly,
so a recipient whose addr_spec is not a merge_data key raises KeyError. -/
def unisenderSetMergeData (merge_data : List (String × JObj))
    (recips : List UniRecipient) : Except PyErr (List UniRecipient) :=
  if merge_data.isEmpty then .ok recips
  else
    recips.mapM (fun r =>
      match alookup merge_data r.email with
      | none => .error (.keyErr r.email)
      | some md => .ok { r with substitutions := aupdate md r.substitutions })

/-! ### JSON serialization, `json.dumps(..., separators=(",", ":"))`

Used by the Unisender Go webhook validator, which re-serializes the request
JSON without any whitespace. `ensure_ascii` is left at its Python default, so
characters outside the printable ASCII range are emitted as `\uXXXX` escape
sequences (with surrogate pairs above the BMP). -/

/-- Lower-case hexadecimal digit for a value below 16. -/
def hexDigit (n : Nat) : Char :=
  if n < 10 then Char.ofNat (48 + n) else Char.ofNat (87 + n)

/-- Four-digit `\uXXXX` escape for a code unit below 0x10000. -/
def uEscape (n : Nat) : String :=
  ⟨['\\', 'u', hexDigit (n / 4096 % 16), hexDigit (n / 256 % 16),
    hexDigit (n / 16 % 16), hexDigit (n % 16)]⟩

/-- JSON escaping of one character, as Python's `json.dumps` with
`ensure_ascii=True`: quote and backslash get a backslash escape, the common
control characters get their short escapes, all other characters outside the
printable ASCII range 0x20–0x7e are `\uXXXX`-escaped (as a surrogate pair
beyond the BMP). -/
def jescapeChar (c : Char) : String :=
  if c = '"' then "\\\""
  else if c = '\\' then "\\\\"
  else if c = '\n' then "\\n"
  else if c = '\r' then "\\r"
  else if c = '\t' then "\\t"
  else if c.toNat = 8 then "\\b"
  else if c.toNat = 12 then "\\f"
  else if c.toNat < 32 then uEscape c.toNat
  else if c.toNat < 127 then String.singleton c
  else if c.toNat < 65536 then uEscape c.toNat
  else
    let v := c.toNat - 65536
    uEscape (55296 + v / 1024) ++ uEscape (56320 + v % 1024)

/-- JSON escaping of a string's characters (without the surrounding
quotes). -/
def jescape (s : String) : String :=
  String.join (s.data.map jescapeChar)

mutual

/-- Compact JSON serialization of a value:
`json.dumps(v, separators=(",", ":"))`, with item separator "," and
key separator ":" and no whitespace. -/
def jdumpCompact : JVal → String
  | .jnull => "null"
  | .jbool true => "true"
  | .jbool false => "false"
  | .jnum n => toString n
  | .jstr s => "\"" ++ jescape s ++ "\""
  | .jarr elems => "[" ++ jdumpElems elems ++ "]"
  | .jobj fields => "\x7b" ++ jdumpFields fields ++ "\x7d"

/-- Comma-joined serialization of an array's elements. -/
def jdumpElems : List JVal → String
  | [] => ""
  | [v] => jdumpCompact v
  | v :: rest => jdumpCompact v ++ "," ++ jdumpElems rest

/-- Comma-joined serialization of an object's `"key":value` entries. -/
def jdumpFields : List (String × JVal) → String
  | [] => ""
  | [(k, v)] => "\"" ++ jescape k ++ "\":" ++ jdumpCompact v
  | (k, v) :: rest =>
      "\"" ++ jescape k ++ "\":" ++ jdumpCompact v ++ "," ++ jdumpFields rest

end

/-! ### Unisender Go tracking webhook (src/anymail/webhooks/unisender_go.py) -/

/-- `UnisenderGoTrackingWebhookView.validate_request`. The request body has
already been parsed as a JSON object (`json.loads(request.body)`); `md5hex`
is the MD5 hex-digest function (`hashlib.md5(...).hexdigest()`, an external
primitive taken as a parameter); `apiKey` is
`settings.ANYMAIL_UNISENDERGO_API_KEY`. The code takes the body's "auth"
field (defaulting to "" when absent; a non-string "auth" would make the
final `constant_time_compare` raise TypeError), substitutes the API key into
the "auth" field, re-serializes the JSON compactly
(`separators=(",", ":")`), hashes it, and compares with Django's
`constant_time_compare` — functionally string equality (its constant-time
execution is a timing property outside this model). Mismatch raises
AnymailWebhookValidationFailure. -/
def unisenderGoValidateRequest (apiKey : String) (md5hex : String → String)
    (body : JObj) : Except PyErr Unit := do
  let requestAuth ←
    match alookup body "auth" with
    | some (.jstr s) => Except.ok s
    | none => Except.ok ""
    | some _ => Except.error PyErr.typeErr
  let withKey := aset body "auth" (.jstr apiKey)
  let expectedAuth := md5hex (jdumpCompact (.jobj withKey))
  if requestAuth = expectedAuth then return ()
  else Except.error PyErr.validationFailure

/-! ### Webhook signature validation (src/anymail/webhooks/sendgrid.py and
src/anymail/webhooks/mailpace.py)

Raw HTTP bodies are byte strings (`ByteStr`), distinct from `String`:
Django's `HttpRequest.body` is `bytes` (both webhook modules call
`request.body.decode("utf-8")` in `parse_events`). Cryptographic
primitives are taken as parameters: a base64 decoder returning `none` on
invalid input, and a boolean signature verifier. -/

/-- Raw bytes of an HTTP request body. -/
abbrev ByteStr := List Nat

/-- Python `str + bytes` raises TypeError. `SendGridWebhookSignatureVerificationMixin.validate_request`
computes `(timestamp + request.body)` where `timestamp` is a header string
and `request.body` is bytes; were it ever evaluated it would raise. -/
def pyStrPlusBytes (_ : String) (_ : ByteStr) : Except PyErr ByteStr :=
  .error .typeErr

/-- Django header-to-META key translation: each HTTP request header is
exposed in `request.META` under `HTTP_` plus the header name uppercased with
hyphens replaced by underscores (the repository's own webhook tests pass
headers as `HTTP_X_TWILIO_EMAIL_EVENT_WEBHOOK_SIGNATURE=...`). -/
def cgiMetaKey (name : String) : String :=
  "HTTP_" ++ String.map (fun c => if c = '-' then '_' else c.toUpper) name

/-- The `request.META` mapping a Django request presents for a given list of
HTTP request headers. -/
def djangoMeta (headers : List (String × String)) : List (String × String) :=
  headers.map (fun kv => (cgiMetaKey kv.1, kv.2))

/-- `SendGridWebhookSignatureVerificationMixin.validate_request`, for a
deployment with a webhook key configured and no HTTP basic auth (the
`super().validate_request(request)` basic-auth check lives in the shared
base view, outside the examined sources, and passes when no credentials are
configured). The code reads the signature and timestamp headers out of
`request.META` under their hyphenated names
(`request.META["X-Twilio-Email-Event-Webhook-Signature"]`), raising the
"header missing from webhook" AnymailWebhookValidationFailure on KeyError;
it then concatenates the timestamp string with the `bytes` body (a
TypeError), base64-decodes the signature (`binascii.Error` uncaught), and
verifies the ECDSA/SHA-256 signature, mapping `InvalidSignature` to
AnymailWebhookValidationFailure. `verify sig payload` is
`self.webhook_key.verify(sig, payload, ec.ECDSA(hashes.SHA256()))` as a
boolean. -/
def sendgridValidateRequest (verify : ByteStr → ByteStr → Bool)
    (b64decode : String → Option ByteStr)
    (meta : List (String × String)) (body : ByteStr) : Except PyErr Unit := do
  let signature ←
    match alookup meta "X-Twilio-Email-Event-Webhook-Signature" with
    | none => Except.error PyErr.validationFailure
    | some s => Except.ok s
  let timestamp ←
    match alookup meta "X-Twilio-Email-Event-Webhook-Timestamp" with
    | none => Except.error PyErr.validationFailure
    | some t => Except.ok t
  let timestampedPayload ← pyStrPlusBytes timestamp body
  let decodedSignature ←
    match b64decode signature with
    | none => Except.error PyErr.binasciiErr
    | some d => Except.ok d
  if verify decodedSignature timestampedPayload then return ()
  else Except.error PyErr.validationFailure

/-- `MailPaceTrackingWebhookView.validate_request`: reads the
`X-MailPace-Signature` header (`request.headers`, the logical header
mapping), base64-decodes it — a missing header or undecodable base64 raises
the "invalid or missing signature" AnymailWebhookValidationFailure — then
builds the Ed25519 verify key from the configured base64 webhook key (a
failure there, `none`, is NOT caught and escapes as `binasciiErr`) and
verifies the signature over the raw body, mapping a verification failure
(`CryptoError`/`ValueError`) to the "incorrect signature"
AnymailWebhookValidationFailure. `verify key msg sig` is
`VerifyKey(key).verify(msg, sig)` as a boolean. -/
def mailpaceValidateRequest (webhookKey : String)
    (verify : ByteStr → ByteStr → ByteStr → Bool)
    (b64decode : String → Option ByteStr)
    (headers : List (String × String)) (body : ByteStr) : Except PyErr Unit := do
  let signature ←
    match alookup headers "X-MailPace-Signature" with
    | none => Except.error PyErr.validationFailure
    | some sigB64 =>
      match b64decode sigB64 with
      | none => Except.error PyErr.validationFailure
      | some sig => Except.ok sig
  let verifyKeyBytes ←
    match b64decode webhookKey with
    | none => Except.error PyErr.binasciiErr
    | some k => Except.ok k
  if verify verifyKeyBytes body signature then return ()
  else Except.error PyErr.validationFailure

/-! ### Canonical webhook event taxonomy -/

/-- Modelled from the spec: the canonical `EventType` enumeration (spec
section 3); `anymail.signals` is not among the examined sources, but the
webhook modules reference exactly these members. -/
inductive EventType where
  | queued | sent | delivered | deferred | bounced | rejected | opened
  | clicked | complained | unsubscribed | subscribed | inbound | unknown
  deriving DecidableEq, Repr

/-- Modelled from the spec: the canonical `RejectReason` enumeration (spec
section 3). -/
inductive RejectReason where
  | invalid | bounced | blocked | spam | unsubscribed | timed_out | other
  deriving DecidableEq, Repr

/-! ### SendGrid tracking event mapper (src/anymail/webhooks/sendgrid.py) -/

/-- `SendGridTrackingWebhookView.event_types`: the fixed SendGrid event-name
lookup table. -/
def sendgridEventTypes : List (String × EventType) :=
  [("bounce", .bounced), ("deferred", .deferred), ("delivered", .delivered),
   ("dropped", .rejected), ("processed", .queued), ("click", .clicked),
   ("open", .opened), ("spamreport", .complained), ("unsubscribe", .unsubscribed),
   ("group_unsubscribe", .unsubscribed), ("group_resubscribe", .subscribed)]

/-- `SendGridTrackingWebhookView.reject_reasons`: the fixed lowercased
reason/type lookup table. -/
def sendgridRejectReasons : List (String × RejectReason) :=
  [("invalid", .invalid), ("unsubscribed address", .unsubscribed),
   ("bounce", .bounced), ("bounced address", .bounced), ("blocked", .blocked),
   ("expired", .timed_out)]

/-- `SendGridTrackingWebhookView.sendgrid_event_keys`: the known SendGrid
event fields subtracted from the event to recover metadata. -/
def sendgridEventKeys : List String :=
  ["anymail_id", "asm_group_id", "attempt", "category", "cert_err", "email",
   "event", "ip", "marketing_campaign_id", "marketing_campaign_name",
   "newsletter", "nlvx_campaign_id", "nlvx_campaign_split_id", "nlvx_user_id",
   "pool", "post_type", "reason", "response", "send_at", "sg_event_id",
   "sg_message_id", "smtp-id", "status", "timestamp", "tls", "type", "url",
   "url_offset", "useragent"]

/-- The `AnymailTrackingEvent` a SendGrid tracking event maps to. Fields the
source fills straight from `esp_event.get(...)` keep the raw `JVal`;
`timestamp` holds the abstract datetime `datetime.fromtimestamp` returned
(None when the field was absent or `fromtimestamp` raised ValueError). -/
structure SendGridTrackingEvent where
  event_type : EventType
  timestamp : Option Int
  message_id : Option JVal
  event_id : Option JVal
  recipient : Option JVal
  reject_reason : Option RejectReason
  mta_response : Option JVal
  tags : JVal
  metadata : JObj
  click_url : Option JVal
  user_agent : Option JVal

/-- Python `str.lower()`, ASCII case folding (the table keys are ASCII). -/
def strLower (s : String) : String :=
  String.map Char.toLower s

/-- `SendGridTrackingWebhookView.esp_to_anymail_event`. `esp_event["event"]`
raises KeyError when absent; a non-string "event" value simply misses the
lookup table (`dict.get`) and is unequal to "dropped". The timestamp is
`datetime.fromtimestamp(esp_event["timestamp"], tz=utc)` inside a
`try ... except (KeyError, ValueError)` that maps exactly those two
exceptions to None: `fromTimestamp` is the external `datetime.fromtimestamp`
call on the numeric value (returning an abstract datetime, or raising — e.g.
`valueErr` for a year out of datetime's range, caught here, or
`overflowErr` for a value beyond the platform's time_t, which propagates
uncaught); a non-numeric timestamp raises an uncaught TypeError from
`fromtimestamp` itself. For "dropped" events the reason is
`esp_event.get("type", esp_event.get("reason", ""))` lowercased (a
non-string there would raise AttributeError, modelled `typeErr`) and looked
up with default `OTHER`; otherwise `mta_response` is
`esp_event.get("response", esp_event.get("reason", None))`. Metadata is the
event minus the known SendGrid keys (the source materializes an unordered
Python set of the remaining keys; the model keeps them in event order). -/
def sendgridEspToAnymailEvent (fromTimestamp : Int → Except PyErr Int)
    (e : JObj) : Except PyErr SendGridTrackingEvent := do
  let eventVal ←
    match alookup e "event" with
    | none => Except.error (PyErr.keyErr "event")
    | some v => Except.ok v
  let event_type :=
    match eventVal with
    | .jstr s => (alookup sendgridEventTypes s).getD .unknown
    | _ => .unknown
  let timestamp ←
    match alookup e "timestamp" with
    | some (.jnum n) =>
        match fromTimestamp n with
        | .ok dt => Except.ok (some dt)
        | .error .valueErr => Except.ok none
        | .error err => Except.error err
    | none => Except.ok none
    | some _ => Except.error PyErr.typeErr
  let dropped : Bool :=
    match eventVal with
    | .jstr s => s == "dropped"
    | _ => false
  let (mta_response, reject_reason) ←
    if dropped then
      match (alookup e "type").getD ((alookup e "reason").getD (.jstr "")) with
      | .jstr r =>
          Except.ok ((none : Option JVal),
            some ((alookup sendgridRejectReasons (strLower r)).getD .other))
      | _ => Except.error PyErr.typeErr
    else
      Except.ok ((alookup e "response").orElse (fun _ => alookup e "reason"),
        (none : Option RejectReason))
  let metadata := e.filter (fun kv => !sendgridEventKeys.contains kv.1)
  return { event_type := event_type
           timestamp := timestamp
           message_id := (alookup e "anymail_id").orElse (fun _ => alookup e "smtp-id")
           event_id := alookup e "sg_event_id"
           recipient := alookup e "email"
           reject_reason := reject_reason
           mta_response := mta_response
           tags := (alookup e "category").getD (.jarr [])
           metadata := metadata
           click_url := alookup e "url"
           user_agent := alookup e "useragent" }

/-! ### MailPace tracking event mapper (src/anymail/webhooks/mailpace.py) -/

/-- `MailPaceTrackingWebhookView.event_record_types`: the fixed MailPace
event lookup table. -/
def mailpaceEventRecordTypes : List (String × EventType) :=
  [("email.queued", .queued), ("email.delivered", .delivered),
   ("email.deferred", .deferred), ("email.bounced", .bounced),
   ("email.spam", .rejected)]

/-- The `AnymailTrackingEvent` a MailPace tracking event maps to;
`timestamp` holds what Django's `parse_datetime` returned for the
"created_at" string: an abstract datetime, or None for a string that does
not look like a datetime at all. -/
structure MailPaceTrackingEvent where
  event_type : EventType
  timestamp : Option String
  event_id : JVal
  message_id : JVal
  recipient : JVal
  tags : JVal
  reject_reason : Option RejectReason

/-- `MailPaceTrackingWebhookView.esp_to_anymail_event`. `esp_event["event"]`
and `esp_event["payload"]` raise KeyError when absent (a non-object payload
raises on the subsequent subscripts, modelled `typeErr`), as do the
payload's "created_at", "id", "message_id" and "to" fields; "tags" defaults
to `[]`. The "created_at" value goes through Django's `parse_datetime` with
no try around it: `parseDatetime` is that external call, returning an
abstract datetime, None for a string that does not match the datetime
shape, or raising an uncaught `valueErr` for a well-formatted but invalid
datetime; a non-string "created_at" makes `parse_datetime` raise an
uncaught TypeError. The reject reason is SPAM for REJECTED events, BOUNCED
for BOUNCED events, None otherwise. An unrecognized event name takes the
lookup table's `UNKNOWN` default. -/
def mailpaceEspToAnymailEvent (parseDatetime : String → Except PyErr (Option String))
    (e : JObj) : Except PyErr MailPaceTrackingEvent := do
  let eventVal ←
    match alookup e "event" with
    | none => Except.error (PyErr.keyErr "event")
    | some v => Except.ok v
  let event_type :=
    match eventVal with
    | .jstr s => (alookup mailpaceEventRecordTypes s).getD .unknown
    | _ => .unknown
  let payload ←
    match alookup e "payload" with
    | none => Except.error (PyErr.keyErr "payload")
    | some (.jobj p) => Except.ok p
    | some _ => Except.error PyErr.typeErr
  let reject_reason : Option RejectReason :=
    if event_type = .rejected then some .spam
    else if event_type = .bounced then some .bounced
    else none
  let tags := (alookup payload "tags").getD (.jarr [])
  let created ←
    match alookup payload "created_at" with
    | none => Except.error (PyErr.keyErr "created_at")
    | some (.jstr s) => parseDatetime s
    | some _ => Except.error PyErr.typeErr
  let idv ←
    match alookup payload "id" with
    | none => Except.error (PyErr.keyErr "id")
    | some v => Except.ok v
  let mid ←
    match alookup payload "message_id" with
    | none => Except.error (PyErr.keyErr "message_id")
    | some v => Except.ok v
  let toV ←
    match alookup payload "to" with
    | none => Except.error (PyErr.keyErr "to")
    | some v => Except.ok v
  return { event_type := event_type
           timestamp := created
           event_id := idv
           message_id := mid
           recipient := toV
           tags := tags
           reject_reason := reject_reason }

/-! ### Unisender Go tracking event mapper
(src/anymail/webhooks/unisender_go.py) -/

/-- `UnisenderGoTrackingWebhookView.event_types`: the fixed status lookup
table. -/
def unisenderEventTypes : List (String × EventType) :=
  [("sent", .sent), ("delivered", .delivered), ("opened", .opened),
   ("clicked", .clicked), ("unsubscribed", .unsubscribed),
   ("subscribed", .subscribed), ("spam", .complained),
   ("soft_bounced", .bounced), ("hard_bounced", .bounced)]

/-- `UnisenderGoTrackingWebhookView.reject_reasons`: the fixed
delivery-status lookup table. -/
def unisenderRejectReasons : List (String × RejectReason) :=
  [("err_user_unknown", .invalid), ("err_user_inactive", .invalid),
   ("err_will_retry", .invalid), ("err_mailbox_discarded", .invalid),
   ("err_mailbox_full", .bounced), ("err_spam_rejected", .spam),
   ("err_blacklisted", .blocked), ("err_too_large", .blocked),
   ("err_unsubscribed", .unsubscribed), ("err_unreachable", .invalid),
   ("err_skip_letter", .invalid), ("err_domain_inactive", .invalid),
   ("err_destination_misconfigured", .bounced), ("err_delivery_failed", .other),
   ("err_spam_skipped", .spam), ("err_lost", .other)]

/-- The reject-reason value the Unisender Go mapper produces: the source sets
`anymail_reject_reason = ""` (an empty string, not None) when the delivery
status does not start with "err", and a `RejectReason` member otherwise. -/
inductive UniReject where
  | emptyStr
  | reason (r : RejectReason)
  deriving DecidableEq, Repr

/-- The `AnymailTrackingEvent` a Unisender Go tracking event maps to;
`event_time` holds the abstract datetime `datetime.fromisoformat` returned
for the "event_time" string (then marked UTC by `.replace(tzinfo=utc)`,
which cannot fail). -/
structure UniTrackingEvent where
  event_type : EventType
  event_time : String
  message_id : Option JVal
  recipient : JVal
  reject_reason : UniReject
  mta_response : JVal
  metadata : JObj

/-- `UnisenderGoTrackingWebhookView.esp_to_anymail_event`. A
"transactional_spam_block" event maps to `None` (no tracking event);
otherwise `esp_event["event_data"]` and its "status", "event_time",
"metadata" and "email" fields are required (KeyError when absent; non-dict
`event_data`/`delivery_info`/`metadata` or a non-string "event_time" raise
type-level errors, modelled `typeErr`); `delivery_info` defaults to an
empty dict, its "delivery_status" to "" and its "destination_response" to ""
(the source also reads a misspelled "use_ragent" key for the user agent,
not modelled). An unrecognized status takes the lookup table's `UNKNOWN`
default; the reject reason is only consulted when the delivery status starts
with "err". -/
def unisenderEspToAnymailEvent (fromIso : String → Except PyErr String)
    (e : JObj) : Except PyErr (Option UniTrackingEvent) := do
  let nameVal ←
    match alookup e "event_name" with
    | none => Except.error (PyErr.keyErr "event_name")
    | some v => Except.ok v
  let isSpamBlock : Bool :=
    match nameVal with
    | .jstr s => s == "transactional_spam_block"
    | _ => false
  if isSpamBlock then
    return none
  let eventData ←
    match alookup e "event_data" with
    | none => Except.error (PyErr.keyErr "event_data")
    | some (.jobj d) => Except.ok d
    | some _ => Except.error PyErr.typeErr
  let statusVal ←
    match alookup eventData "status" with
    | none => Except.error (PyErr.keyErr "status")
    | some v => Except.ok v
  let event_type :=
    match statusVal with
    | .jstr s => (alookup unisenderEventTypes s).getD .unknown
    | _ => .unknown
  let eventTime ←
    match alookup eventData "event_time" with
    | none => Except.error (PyErr.keyErr "event_time")
    | some (.jstr t) => fromIso t
    | some _ => Except.error PyErr.typeErr
  let metadata ←
    match alookup eventData "metadata" with
    | none => Except.error (PyErr.keyErr "metadata")
    | some (.jobj m) => Except.ok m
    | some _ => Except.error PyErr.typeErr
  let deliveryInfo ←
    match alookup eventData "delivery_info" with
    | none => Except.ok ([] : JObj)
    | some (.jobj d) => Except.ok d
    | some _ => Except.error PyErr.typeErr
  let deliveryStatus ←
    match alookup deliveryInfo "delivery_status" with
    | none => Except.ok ""
    | some (.jstr s) => Except.ok s
    | some _ => Except.error PyErr.typeErr
  let reject_reason : UniReject :=
    if deliveryStatus.startsWith "err" then
      .reason ((alookup unisenderRejectReasons deliveryStatus).getD .other)
    else .emptyStr
  let recip ←
    match alookup eventData "email" with
    | none => Except.error (PyErr.keyErr "email")
    | some v => Except.ok v
  return some
    { event_type := event_type
      event_time := eventTime
      message_id := alookup metadata "message_id"
      recipient := recip
      reject_reason := reject_reason
      mta_response := (alookup deliveryInfo "destination_response").getD (.jstr "")
      metadata := metadata }

/-- The canonical event type a SendGrid mapper run produced, `none` when the
mapper raised. -/
def exceptEventTypeSG : Except PyErr SendGridTrackingEvent → Option EventType
  | .ok ev => some ev.event_type
  | .error _ => none

/-- The canonical event type a MailPace mapper run produced, `none` when the
mapper raised. -/
def exceptEventTypeMP : Except PyErr MailPaceTrackingEvent → Option EventType
  | .ok ev => some ev.event_type
  | .error _ => none

/-- The canonical event type a Unisender Go mapper run produced, `none` when
the mapper raised or skipped the event. -/
def exceptEventTypeUG : Except PyErr (Option UniTrackingEvent) → Option EventType
  | .ok (some ev) => some ev.event_type
  | .ok none => none
  | .error _ => none

/-! ## Dictionary lemmas -/

theorem alookup_nil {α : Type} (k : String) :
    alookup ([] : List (String × α)) k = none := rfl

theorem alookup_aset_self {α : Type} (d : List (String × α)) (k : String) (v : α) :
    alookup (aset d k v) k = some v := by
  induction d with
  | nil => simp [aset, alookup]
  | cons kv rest ih =>
    obtain ⟨k1, v1⟩ := kv
    by_cases h : k1 = k
    · subst h; simp [aset, alookup]
    · simp [aset, alookup, h, ih]

theorem alookup_aset_ne {α : Type} (d : List (String × α)) (k k2 : String) (v : α)
    (h : k2 ≠ k) : alookup (aset d k v) k2 = alookup d k2 := by
  induction d with
  | nil => simp [aset, alookup, Ne.symm h]
  | cons kv rest ih =>
    obtain ⟨k1, v1⟩ := kv
    by_cases h1 : k1 = k
    · subst h1; simp [aset, alookup, Ne.symm h]
    · by_cases h2 : k1 = k2
      · subst h2; simp [aset, alookup, h1]
      · simp [aset, alookup, h1, h2, ih]

theorem ahas_aset_self {α : Type} (d : List (String × α)) (k : String) (v : α) :
    ahas (aset d k v) k = true := by
  simp [ahas, alookup_aset_self]

theorem ahas_aset_ne {α : Type} (d : List (String × α)) (k k2 : String) (v : α)
    (h : k2 ≠ k) : ahas (aset d k v) k2 = ahas d k2 := by
  simp [ahas, alookup_aset_ne d k k2 v h]

theorem alookup_adelete_self {α : Type} (d : List (String × α)) (k : String) :
    alookup (adelete d k) k = none := by
  induction d with
  | nil => simp [adelete, alookup]
  | cons kv rest ih =>
    obtain ⟨k1, v1⟩ := kv
    by_cases h : k1 = k
    · subst h; simpa [adelete, alookup] using ih
    · simpa [adelete, alookup, h] using ih

theorem alookup_adelete_ne {α : Type} (d : List (String × α)) (k k2 : String)
    (h : k2 ≠ k) : alookup (adelete d k) k2 = alookup d k2 := by
  induction d with
  | nil => simp [adelete, alookup]
  | cons kv rest ih =>
    obtain ⟨k1, v1⟩ := kv
    by_cases h1 : k1 = k
    · subst h1; simpa [adelete, alookup, Ne.symm h] using ih
    · by_cases h2 : k1 = k2
      · subst h2; simp [adelete, alookup, h1]
      · simpa [adelete, alookup, h1, h2] using ih

theorem aupdate_cons {α : Type} (d : List (String × α)) (kv : String × α)
    (rest : List (String × α)) :
    aupdate d (kv :: rest) = aupdate (aset d kv.1 kv.2) rest := rfl

theorem alookup_eq_none_of_not_mem {α : Type} (d : List (String × α)) (k : String)
    (h : k ∉ d.map Prod.fst) : alookup d k = none := by
  induction d with
  | nil => simp [alookup]
  | cons kv rest ih =>
    obtain ⟨k1, v1⟩ := kv
    simp only [List.map_cons, List.mem_cons, not_or] at h
    simp [alookup, Ne.symm h.1, ih h.2]

theorem alookup_aupdate_of_none {α : Type} (e d : List (String × α)) (k : String)
    (h : alookup e k = none) : alookup (aupdate d e) k = alookup d k := by
  induction e generalizing d with
  | nil => rfl
  | cons kv rest ih =>
    obtain ⟨k1, v1⟩ := kv
    by_cases h1 : k1 = k
    · subst h1; simp [alookup] at h
    · rw [aupdate_cons]
      simp only [alookup, h1, if_neg h1] at h
      rw [ih _ h, alookup_aset_ne _ _ _ _ (fun hk => h1 hk.symm)]

theorem alookup_aupdate_of_some {α : Type} (e d : List (String × α)) (k : String)
    (v : α) (hnd : (e.map Prod.fst).Nodup) (h : alookup e k = some v) :
    alookup (aupdate d e) k = some v := by
  induction e generalizing d with
  | nil => simp [alookup] at h
  | cons kv rest ih =>
    obtain ⟨k1, v1⟩ := kv
    simp only [List.map_cons, List.nodup_cons] at hnd
    by_cases h1 : k1 = k
    · subst h1
      have hv : v1 = v := by simpa [alookup] using h
      subst hv
      rw [aupdate_cons]
      have hrest : alookup rest k1 = none :=
        alookup_eq_none_of_not_mem _ _ hnd.1
      rw [alookup_aupdate_of_none _ _ _ hrest, alookup_aset_self]
    · simp only [alookup, if_neg h1] at h
      rw [aupdate_cons]
      exact ih _ hnd.2 h

/-! ## Mailjet: claims C1 and C4 -/

theorem ahas_mailjetAddRecipientHeader_ne (d : JObj) (t k : String)
    (es : List EmailAddr) (h : k ≠ t) :
    ahas (mailjetAddRecipientHeader d t es) k = ahas d k := by
  unfold mailjetAddRecipientHeader
  split
  · rfl
  · exact ahas_aset_ne d t k _ h

/-- C1: in the Mailjet payload, whenever cc or bcc is non-empty and merge
data is set (a non-empty mapping), the `_finish_recipients` step performed
at the start of `serialize_data` — i.e. before any HTTP activity — raises
NotImplementedError ("Cannot set merge data with bcc/cc"); and any
successfully serialized body never carries both the per-recipient
`Recipients` substitution array and a literal `Cc` or `Bcc` header field.
(The hypothesis that the accumulated data has no `Recipients` key holds for
every payload built from a canonical message: no Mailjet setter writes that
key — only a caller's esp_extra could, and that would trade the
NotImplementedError for the method's AssertionError.) -/
theorem mailjet_merge_with_cc_bcc_raises :
    (∀ s : MailjetPayloadState,
        (s.recipientsCc ≠ [] ∨ s.recipientsBcc ≠ []) →
        mergeDataTruthy s.merge_data = true →
        ahas s.data "Recipients" = false →
        mailjetFinishRecipients s = .error .notImplementedErr)
    ∧ (∀ (s : MailjetPayloadState) (d : JObj),
        mailjetFinishRecipients s = .ok d →
        ¬(ahas d "Recipients" = true ∧
          (ahas d "Cc" = true ∨ ahas d "Bcc" = true))) := by
  constructor
  · intro s hccbcc hmerge hnorec
    have hcond : (!s.recipientsCc.isEmpty || !s.recipientsBcc.isEmpty) = true := by
      rcases hccbcc with h | h
      · cases hc : s.recipientsCc with
        | nil => exact absurd hc h
        | cons a t => simp [hc]
      · cases hc : s.recipientsBcc with
        | nil => exact absurd hc h
        | cons a t => simp [hc]
    unfold mailjetFinishRecipients
    rw [if_pos hcond]
    unfold mailjetFinishRecipientsSingle
    rw [if_neg (by simp [hnorec]), if_pos hmerge]
  · intro s d hok hcontra
    obtain ⟨hR, hCB⟩ := hcontra
    unfold mailjetFinishRecipients at hok
    split at hok
    · -- cc or bcc present: the single-message shape
      unfold mailjetFinishRecipientsSingle at hok
      split at hok
      · exact Except.noConfusion hok
      · split at hok
        · exact Except.noConfusion hok
        · next hnorec _ =>
          injection hok with hd
          subst hd
          rw [ahas_mailjetAddRecipientHeader_ne _ _ _ _ (by decide),
              ahas_mailjetAddRecipientHeader_ne _ _ _ _ (by decide),
              ahas_mailjetAddRecipientHeader_ne _ _ _ _ (by decide)] at hR
          simp only [Bool.not_eq_true] at hnorec
          exact absurd hR (by simp [hnorec])
    · -- pure multi-to shape: the Recipients substitution array
      unfold mailjetFinishRecipientsWithVars at hok
      split at hok
      · exact Except.noConfusion hok
      · split at hok
        · exact Except.noConfusion hok
        · next hnocb _ =>
          injection hok with hd
          subst hd
          simp only [Bool.or_eq_true, not_or, Bool.not_eq_true] at hnocb
          rcases hCB with h | h
          · rw [ahas_aset_ne _ _ _ _ (by decide)] at h
            exact absurd h (by simp [hnocb.1])
          · rw [ahas_aset_ne _ _ _ _ (by decide)] at h
            exact absurd h (by simp [hnocb.2])

/-- Witness for C1: a payload with one cc recipient and non-empty merge data
raises NotImplementedError at the finish-recipients step. -/
theorem mailjet_merge_with_cc_bcc_raises_witness :
    mailjetFinishRecipients
      { data := [],
        recipientsTo := [⟨"to@x.com", ""⟩],
        recipientsCc := [⟨"cc@x.com", ""⟩],
        recipientsBcc := [],
        merge_data := some [("to@x.com", .jobj [("name", .jstr "Alice")])] } =
      .error .notImplementedErr :=
  mailjet_merge_with_cc_bcc_raises.1 _ (Or.inl (by simp)) rfl rfl

/-- C4: the scenario's serialization produces a `Recipients` array of exactly
two entries in input order, the first carrying `{"name": "Alice"}` as its
`Vars` substitution data and the second carrying no `Vars` key at all; and in
general, for any payload in the pure-multi-to shape (no cc/bcc), a recipient
addr_spec missing from merge_data never causes an error — serialization
succeeds. -/
theorem mailjet_merge_scenario :
    mailjetFinishRecipients mailjetScenarioState =
      .ok [("Recipients", .jarr
            [.jobj [("Email", .jstr "a@x.com"),
                    ("Vars", .jobj [("name", .jstr "Alice")])],
             .jobj [("Email", .jstr "b@x.com")]])]
    ∧ (∀ s : MailjetPayloadState,
        s.recipientsCc = [] → s.recipientsBcc = [] → s.recipientsTo ≠ [] →
        ahas s.data "Cc" = false → ahas s.data "Bcc" = false →
        ∃ d, mailjetFinishRecipients s = .ok d) := by
  constructor
  · rfl
  · intro s hcc hbcc hto hnoCc hnoBcc
    unfold mailjetFinishRecipients
    rw [if_neg (by simp [hcc, hbcc])]
    unfold mailjetFinishRecipientsWithVars
    rw [if_neg (by simp [hnoCc, hnoBcc])]
    rw [if_neg (by simpa using hto)]
    exact ⟨_, rfl⟩

/-- Witness for C4: the general no-error conjunct applied at the scenario
state itself. -/
theorem mailjet_merge_scenario_witness :
    ∃ d, mailjetFinishRecipients mailjetScenarioState = .ok d :=
  mailjet_merge_scenario.2 mailjetScenarioState rfl rfl (by simp [mailjetScenarioState]) rfl rfl

/-! ## MailPace response parsing: claim C2 -/

theorem alookup_foldl_aset_const {α : Type} (recips : List EmailAddr)
    (m : List (String × α)) (v : α) (k : String)
    (h : alookup m k = some v ∨ ∃ r ∈ recips, r.email = k) :
    alookup (recips.foldl (fun m2 x => aset m2 x.email v) m) k = some v := by
  induction recips generalizing m with
  | nil =>
    rcases h with h | ⟨r, hr, _⟩
    · exact h
    · exact absurd hr (List.not_mem_nil r)
  | cons x rest ih =>
    simp only [List.foldl_cons]
    apply ih
    by_cases hk : k = x.email
    · subst hk
      exact Or.inl (alookup_aset_self m _ v)
    · rcases h with h | ⟨r, hr, hre⟩
      · exact Or.inl ((alookup_aset_ne m x.email k v hk).trans h)
      · rcases List.mem_cons.mp hr with rfl | hr2
        · exact absurd hre (fun he => hk he.symm)
        · exact Or.inr ⟨r, hr2, hre⟩

/-- C2 counterexample: with `to=["a@x.com"]`, `cc=["c@x.com"]` and a 400
response whose body is `{"errors": {"to": ["is invalid"]}}`, the MailPace
parser marks BOTH recipients "invalid" — the cc recipient, which the claim
says is left at the default status, is classified too (its status is
"invalid", not the default "unknown"). -/
theorem mailpace_offending_only_counterexample :
    mailpaceParseRecipientStatus [⟨"a@x.com", ""⟩, ⟨"c@x.com", ""⟩]
        ⟨400, none, none, some [("to", ["is invalid"])]⟩ =
      .ok [("a@x.com", ⟨none, "invalid"⟩), ("c@x.com", ⟨none, "invalid"⟩)]
    ∧ (RecipStatus.mk none "invalid").status ≠ "unknown" := by
  exact ⟨rfl, by decide⟩

theorem mailpace_inner_fold_untouched (msgs : List String)
    (recips2 : List EmailAddr) (m : StatusMap) (k : String)
    (h : ∀ x ∈ recips2, x.email ≠ k) :
    alookup (mailpaceApplyMessages msgs recips2 m) k = alookup m k := by
  induction recips2 generalizing m with
  | nil => rfl
  | cons x rest ih =>
    show alookup (mailpaceApplyMessages msgs rest
      (aset m x.email (msgs.foldl mailpaceClassify
        ((alookup m x.email).getD ⟨none, "unknown"⟩)))) k = alookup m k
    rw [ih _ (fun y hy => h y (List.mem_cons_of_mem x hy))]
    exact alookup_aset_ne _ _ _ _ (Ne.symm (h x (List.mem_cons_self x rest)))

theorem mailpace_inner_fold_lookup (msgs : List String)
    (recips : List EmailAddr) (m : StatusMap) (u : RecipStatus)
    (hnd : (recips.map EmailAddr.email).Nodup)
    (hm : ∀ x ∈ recips, alookup m x.email = some u) :
    ∀ r ∈ recips,
      alookup (mailpaceApplyMessages msgs recips m) r.email =
        some (msgs.foldl mailpaceClassify u) := by
  induction recips generalizing m with
  | nil => intro r hr; exact absurd hr (List.not_mem_nil r)
  | cons x rest ih =>
    simp only [List.map_cons, List.nodup_cons] at hnd
    have hmx : alookup m x.email = some u := hm x (List.mem_cons_self x rest)
    have hrest : ∀ y ∈ rest, y.email ≠ x.email := by
      intro y hy he
      exact hnd.1 (he ▸ List.mem_map_of_mem EmailAddr.email hy)
    intro r hr
    have hstep : mailpaceApplyMessages msgs (x :: rest) m =
        mailpaceApplyMessages msgs rest
          (aset m x.email (msgs.foldl mailpaceClassify u)) := by
      show mailpaceApplyMessages msgs rest
        (aset m x.email (msgs.foldl mailpaceClassify
          ((alookup m x.email).getD ⟨none, "unknown"⟩))) = _
      rw [hmx]
      rfl
    rw [hstep]
    rcases List.mem_cons.mp hr with rfl | hr2
    · rw [mailpace_inner_fold_untouched msgs rest _ _ hrest]
      exact alookup_aset_self _ _ _
    · refine ih _ hnd.2 ?_ r hr2
      intro y hy
      rw [alookup_aset_ne _ _ _ _ (hrest y hy)]
      exact hm y (List.mem_cons_of_mem x hy)

theorem mailpace_fields_fold_lookup (errs : List (String × List String))
    (fieldsL : List String) (recips : List EmailAddr) (m : StatusMap)
    (u : RecipStatus)
    (hnd : (recips.map EmailAddr.email).Nodup)
    (hm : ∀ x ∈ recips, alookup m x.email = some u) :
    ∀ r ∈ recips,
      alookup (mailpaceApplyFields errs recips fieldsL m) r.email =
        some ((fieldsL.filterMap (alookup errs)).foldl
          (fun cur msgs => msgs.foldl mailpaceClassify cur) u) := by
  induction fieldsL generalizing m u with
  | nil =>
    intro r hr
    simpa using hm r hr
  | cons f fs ih =>
    intro r hr
    rcases hf : alookup errs f with _ | msgs
    · have hstep : mailpaceApplyFields errs recips (f :: fs) m =
          mailpaceApplyFields errs recips fs m := by
        show mailpaceApplyFields errs recips fs
          (match alookup errs f with
           | none => m
           | some msgs => mailpaceApplyMessages msgs recips m) = _
        rw [hf]
      rw [hstep]
      simp only [List.filterMap_cons, hf]
      exact ih _ _ hm r hr
    · have hstep : mailpaceApplyFields errs recips (f :: fs) m =
          mailpaceApplyFields errs recips fs (mailpaceApplyMessages msgs recips m) := by
        show mailpaceApplyFields errs recips fs
          (match alookup errs f with
           | none => m
           | some msgs => mailpaceApplyMessages msgs recips m) = _
        rw [hf]
      rw [hstep]
      simp only [List.filterMap_cons, hf, List.foldl_cons]
      exact ih _ _ (mailpace_inner_fold_lookup msgs recips m u hnd hm) r hr

/-- C2 amended: for a MailPace 400 response whose JSON body contains an
`errors` object, the structured recovery classifies each error message —
one naming an undefined field or an invalid address yields status
"invalid", else one naming a blocked address yields "rejected", else one
naming the maximum address volume yields "invalid", and any other message
leaves the status unchanged (first four conjuncts) — and applies the
classification of each present to/cc/bcc field's message list to EVERY
recipient of the payload, folding the fields in to, cc, bcc order (fifth
conjunct); hence recipients are left at the default "unknown" status
exactly when the present fields' messages match no pattern, in particular
when `errors` carries none of to/cc/bcc (the fifth conjunct's fold is then
the identity on the default status). In the claim's single-recipient
scenario the outcome is the distinguished RecipientsRefused with status
"invalid" (last conjunct). -/
theorem mailpace_error_status_applies_to_all :
    (∀ (cur : RecipStatus) (msg : String),
        (substrOccurs "undefined field" msg || substrOccurs "is invalid" msg) = true →
        mailpaceClassify cur msg = ⟨none, "invalid"⟩)
    ∧ (∀ (cur : RecipStatus) (msg : String),
        (substrOccurs "undefined field" msg || substrOccurs "is invalid" msg) = false →
        substrOccurs "contains a blocked address" msg = true →
        mailpaceClassify cur msg = ⟨none, "rejected"⟩)
    ∧ (∀ (cur : RecipStatus) (msg : String),
        (substrOccurs "undefined field" msg || substrOccurs "is invalid" msg) = false →
        substrOccurs "contains a blocked address" msg = false →
        substrOccurs "number of email addresses exceeds maximum volume" msg = true →
        mailpaceClassify cur msg = ⟨none, "invalid"⟩)
    ∧ (∀ (cur : RecipStatus) (msg : String),
        (substrOccurs "undefined field" msg || substrOccurs "is invalid" msg) = false →
        substrOccurs "contains a blocked address" msg = false →
        substrOccurs "number of email addresses exceeds maximum volume" msg = false →
        mailpaceClassify cur msg = cur)
    ∧ (∀ (recips : List EmailAddr) (errs : List (String × List String))
        (res : StatusMap),
        (recips.map EmailAddr.email).Nodup →
        mailpaceParseRecipientStatus recips ⟨400, none, none, some errs⟩ = .ok res →
        ∀ r ∈ recips, alookup res r.email =
          some ((["to", "cc", "bcc"].filterMap (alookup errs)).foldl
            (fun cur msgs => msgs.foldl mailpaceClassify cur) ⟨none, "unknown"⟩))
    ∧ sendOutcome (mailpaceParseRecipientStatus [⟨"invalid@localhost", ""⟩]
          ⟨400, none, none, some [("to", ["is invalid"])]⟩) =
        .recipientsRefused [("invalid@localhost", ⟨none, "invalid"⟩)] := by
  refine ⟨?_, ?_, ?_, ?_, ?_, ?_⟩
  · intro cur msg h
    simp [mailpaceClassify, h]
  · intro cur msg h1 h2
    simp [mailpaceClassify, h1, h2]
  · intro cur msg h1 h2 h3
    simp [mailpaceClassify, h1, h2, h3]
  · intro cur msg h1 h2 h3
    simp [mailpaceClassify, h1, h2, h3]
  · intro recips errs res hnd hok
    have h4 : natStrStartsWith4 400 = true := by decide
    have hcomp : mailpaceParseRecipientStatus recips ⟨400, none, none, some errs⟩ =
        .ok (mailpaceApplyErrors errs recips (mailpaceInitStatuses recips)) := by
      simp [mailpaceParseRecipientStatus, h4,
        Except.bind, bind, pure, Except.pure]
    rw [hcomp] at hok
    injection hok with hres
    subst hres
    exact mailpace_fields_fold_lookup errs ["to", "cc", "bcc"] recips _ _ hnd
      (fun x hx => alookup_foldl_aset_const recips [] _ _ (Or.inr ⟨x, hx, rfl⟩))
  · rfl

/-- Witness for C2 (amended): the every-recipient conjunct applied to the
concrete two-recipient run of the counterexample, for its first recipient
(the concrete field fold evaluates to status "invalid"). -/
theorem mailpace_error_status_applies_to_all_witness :
    alookup [("a@x.com", RecipStatus.mk none "invalid"),
             ("c@x.com", RecipStatus.mk none "invalid")] "a@x.com" =
      some ⟨none, "invalid"⟩ :=
  mailpace_error_status_applies_to_all.2.2.2.2.1
    [⟨"a@x.com", ""⟩, ⟨"c@x.com", ""⟩] [("to", ["is invalid"])]
    [("a@x.com", ⟨none, "invalid"⟩), ("c@x.com", ⟨none, "invalid"⟩)]
    (by decide) rfl ⟨"a@x.com", ""⟩ (by decide)

/-! ## MailPace esp_extra server_token: claim C10 -/

/-- C10: supplying esp_extra with a `server_token` key makes that value the
payload's server token (sent as the `MailPace-Server-Token` request header),
removes the key from the payload data so it never reaches the serialized
body, and copies every other esp_extra key into the body unchanged. -/
theorem mailpace_server_token_override :
    ∀ (s : MailPacePayloadState) (extra : JObj) (v : JVal),
      (extra.map Prod.fst).Nodup →
      alookup extra "server_token" = some v →
      (mailpaceSetEspExtra s extra).server_token = v
      ∧ alookup (mailpaceSerializeData (mailpaceSetEspExtra s extra)) "server_token" = none
      ∧ alookup (mailpaceRequestHeaders (mailpaceSetEspExtra s extra))
          "MailPace-Server-Token" = some v
      ∧ (∀ (k : String) (w : JVal), k ≠ "server_token" → alookup extra k = some w →
          alookup (mailpaceSerializeData (mailpaceSetEspExtra s extra)) k = some w) := by
  intro s extra v hnd hv
  have hd : alookup (aupdate s.data extra) "server_token" = some v :=
    alookup_aupdate_of_some extra s.data _ v hnd hv
  refine ⟨?_, ?_, ?_, ?_⟩
  · simp only [mailpaceSetEspExtra, hd, Option.getD_some]
  · simp only [mailpaceSetEspExtra, mailpaceSerializeData]
    exact alookup_adelete_self _ _
  · simp only [mailpaceRequestHeaders, mailpaceSetEspExtra, hd, Option.getD_some]
    exact alookup_aset_self _ _ _
  · intro k w hk hw
    simp only [mailpaceSetEspExtra, mailpaceSerializeData]
    rw [alookup_adelete_ne _ _ _ hk]
    exact alookup_aupdate_of_some extra s.data _ w hnd hw

/-- Witness for C10: a payload with configured token "orig" and esp_extra
`{"server_token": "from-extra", "tags": "x"}`. -/
theorem mailpace_server_token_override_witness :
    (mailpaceSetEspExtra ⟨[], .jstr "orig"⟩
        [("server_token", .jstr "from-extra"), ("tags", .jstr "x")]).server_token =
      .jstr "from-extra" :=
  (mailpace_server_token_override ⟨[], .jstr "orig"⟩
    [("server_token", .jstr "from-extra"), ("tags", .jstr "x")]
    (.jstr "from-extra") (by simp) rfl).1

/-! ## Mailtrap response parsing: claim C3 -/

/-- C3, evaluated at the failing input: a production (non-sandbox) response
with `message_ids = ["id-1", "id-2"]` for recipients
`["to1@example.com", "to2@example.com"]` assigns "id-1" — the FIRST id — to
BOTH recipients (the source binds the zipped per-recipient id but then uses
`parsed_response["message_ids"][0]` for every status), where the claim (and
the repository's own test, tests/test_mailtrap_backend.py lines 443-485)
require "id-2" for the second recipient; the count-mismatch half of the
claim does hold: one recipient against two ids raises the
"Expected 1 message_ids, got 2" APIError. -/
theorem mailtrap_first_id_assigned_to_all :
    mailtrapParseRecipientStatus false ["to1@example.com", "to2@example.com"] [] []
        ⟨.jnull, .jbool true, some ["id-1", "id-2"]⟩ =
      .ok [("to1@example.com", ⟨some "id-1", "sent"⟩),
           ("to2@example.com", ⟨some "id-1", "sent"⟩)]
    ∧ mailtrapParseRecipientStatus false ["to1@example.com"] [] []
        ⟨.jnull, .jbool true, some ["id-1", "id-2"]⟩ =
      .error (.apiCountMismatch 1 2) := by
  exact ⟨rfl, rfl⟩

/-! ## Unisender Go merge data: claim C5 -/

/-- C5, evaluated at the failing input: with recipients
`a@x.com` and `b@x.com` and merge_data holding a key only for `a@x.com`,
`set_merge_data` raises `KeyError: 'b@x.com'` (the source subscripts
`merge_data[recipient_email]` directly) instead of defaulting the missing
key to an empty substitution map as the claim requires; with every
recipient present in merge_data it completes normally. -/
theorem unisender_merge_data_missing_key_raises :
    unisenderSetMergeData [("a@x.com", [("name", .jstr "Alice")])]
        [⟨"a@x.com", [("to_name", .jstr "")]⟩, ⟨"b@x.com", [("to_name", .jstr "")]⟩] =
      .error (.keyErr "b@x.com")
    ∧ unisenderSetMergeData [("a@x.com", [("name", .jstr "Alice")])]
        [⟨"a@x.com", [("to_name", .jstr "")]⟩] =
      .ok [⟨"a@x.com", [("name", .jstr "Alice"), ("to_name", .jstr "")]⟩] := by
  exact ⟨rfl, rfl⟩

/-! ## esp_extra merging: claim C8 -/

theorem updateDeep_nil (d : JObj) : updateDeep d [] = d := by
  rw [updateDeep.eq_def]

theorem updateDeep_cons (d : JObj) (k1 : String) (v1 : JVal) (rest : JObj) :
    updateDeep d ((k1, v1) :: rest) =
      updateDeep (aset d k1 (deepMergedValue (alookup d k1) v1)) rest := by
  conv_lhs => rw [updateDeep.eq_def]
  show (match alookup d k1, v1 with
        | some (.jobj dd), .jobj o =>
            updateDeep (aset d k1 (.jobj (updateDeep dd o))) rest
        | _, _ => updateDeep (aset d k1 v1) rest) =
      updateDeep (aset d k1 (deepMergedValue (alookup d k1) v1)) rest
  rcases alookup d k1 with _ | w
  · cases v1 <;> rfl
  · cases w <;> cases v1 <;> rfl

theorem updateDeep_alookup_not_mem (other : JObj) (d : JObj) (k : String)
    (h : k ∉ other.map Prod.fst) : alookup (updateDeep d other) k = alookup d k := by
  induction other generalizing d with
  | nil => rw [updateDeep_nil]
  | cons kv rest ih =>
    obtain ⟨k1, v1⟩ := kv
    simp only [List.map_cons, List.mem_cons, not_or] at h
    rw [updateDeep_cons]
    exact (ih _ h.2).trans (alookup_aset_ne _ _ _ _ h.1)

theorem updateDeep_alookup (e : JObj) (d : JObj) (k : String) (v : JVal)
    (hnd : (e.map Prod.fst).Nodup) (h : alookup e k = some v) :
    alookup (updateDeep d e) k = some (deepMergedValue (alookup d k) v) := by
  induction e generalizing d with
  | nil => simp [alookup] at h
  | cons kv rest ih =>
    obtain ⟨k1, v1⟩ := kv
    simp only [List.map_cons, List.nodup_cons] at hnd
    by_cases hk : k1 = k
    · subst hk
      have hv : v1 = v := by simpa [alookup] using h
      subst hv
      rw [updateDeep_cons, updateDeep_alookup_not_mem rest _ _ hnd.1,
          alookup_aset_self]
    · have h2 : alookup rest k = some v := by simpa [alookup, hk] using h
      have hne : k ≠ k1 := fun he => hk he.symm
      rw [updateDeep_cons, ih _ hnd.2 h2, alookup_aset_ne _ _ _ _ hne]

/-- C8 counterexample: Mailjet's and Resend's `set_esp_extra` shallow-update
the payload: with the computed data holding
`{"Headers": {"Reply-To": "r@x.com"}, "Subject": "s"}` and esp_extra
`{"Headers": {"X-Custom": "v"}}`, the resulting `Headers` value is exactly
`{"X-Custom": "v"}` — the computed nested `Reply-To` entry is discarded,
whereas the claimed deep-merge semantics would keep it (last conjunct:
`update_deep` keeps both nested entries on the same input). -/
theorem esp_extra_shallow_counterexample :
    mailjetSetEspExtra
        [("Headers", .jobj [("Reply-To", .jstr "r@x.com")]), ("Subject", .jstr "s")]
        [("Headers", .jobj [("X-Custom", .jstr "v")])] =
      [("Headers", .jobj [("X-Custom", .jstr "v")]), ("Subject", .jstr "s")]
    ∧ resendSetEspExtra
        [("Headers", .jobj [("Reply-To", .jstr "r@x.com")]), ("Subject", .jstr "s")]
        [("Headers", .jobj [("X-Custom", .jstr "v")])] =
      [("Headers", .jobj [("X-Custom", .jstr "v")]), ("Subject", .jstr "s")]
    ∧ alookup [("X-Custom", JVal.jstr "v")] "Reply-To" = none
    ∧ updateDeep
        [("Headers", .jobj [("Reply-To", .jstr "r@x.com")]), ("Subject", .jstr "s")]
        [("Headers", .jobj [("X-Custom", .jstr "v")])] =
      [("Headers", .jobj [("Reply-To", .jstr "r@x.com"), ("X-Custom", .jstr "v")]),
       ("Subject", .jstr "s")] := by
  refine ⟨rfl, rfl, rfl, ?_⟩
  rw [updateDeep_cons, updateDeep_nil]
  simp only [alookup, deepMergedValue]
  norm_num
  rw [updateDeep_cons, updateDeep_nil]
  simp [alookup, deepMergedValue, aset]

/-- C8 amended: only Mailtrap's `set_esp_extra` deep-merges (via
`update_deep`): nested mappings present on both sides are merged
recursively and sequences replace atomically; Mailjet's and Resend's
`set_esp_extra` are shallow `dict.update`s, replacing each top-level key's
value wholesale (so a nested computed entry under an overridden top-level
key is discarded, as the counterexample shows). -/
theorem esp_extra_merge_semantics :
    (∀ (d e : JObj) (k : String) (dsub esub : List (String × JVal)),
        (e.map Prod.fst).Nodup →
        alookup d k = some (.jobj dsub) → alookup e k = some (.jobj esub) →
        alookup (mailtrapSetEspExtra d e) k = some (.jobj (updateDeep dsub esub)))
    ∧ (∀ (d e : JObj) (k : String) (xs : List JVal),
        (e.map Prod.fst).Nodup → alookup e k = some (.jarr xs) →
        alookup (mailtrapSetEspExtra d e) k = some (.jarr xs))
    ∧ (∀ (d e : JObj) (k : String) (v : JVal),
        (e.map Prod.fst).Nodup → alookup e k = some v →
        alookup (mailjetSetEspExtra d e) k = some v)
    ∧ (∀ (d e : JObj) (k : String) (v : JVal),
        (e.map Prod.fst).Nodup → alookup e k = some v →
        alookup (resendSetEspExtra d e) k = some v) := by
  refine ⟨?_, ?_, ?_, ?_⟩
  · intro d e k dsub esub hnd hd he
    unfold mailtrapSetEspExtra
    rw [updateDeep_alookup e d k _ hnd he, hd]
    rfl
  · intro d e k xs hnd he
    unfold mailtrapSetEspExtra
    rw [updateDeep_alookup e d k _ hnd he]
    unfold deepMergedValue
    rcases alookup d k with _ | w
    · rfl
    · cases w <;> rfl
  · intro d e k v hnd he
    exact alookup_aupdate_of_some e d k v hnd he
  · intro d e k v hnd he
    exact alookup_aupdate_of_some e d k v hnd he

/-- Witness for C8 (amended): the Mailtrap deep-merge conjunct applied to the
counterexample's concrete data. -/
theorem esp_extra_merge_semantics_witness :
    alookup (mailtrapSetEspExtra
        [("Headers", .jobj [("Reply-To", .jstr "r@x.com")]), ("Subject", .jstr "s")]
        [("Headers", .jobj [("X-Custom", .jstr "v")])]) "Headers" =
      some (.jobj (updateDeep [("Reply-To", .jstr "r@x.com")]
                             [("X-Custom", .jstr "v")])) :=
  esp_extra_merge_semantics.1
    [("Headers", .jobj [("Reply-To", .jstr "r@x.com")]), ("Subject", .jstr "s")]
    [("Headers", .jobj [("X-Custom", .jstr "v")])] "Headers"
    [("Reply-To", .jstr "r@x.com")] [("X-Custom", .jstr "v")]
    (by simp) rfl rfl

/-! ## Unisender Go webhook auth: claim C7 -/

/-- C7: the Unisender Go webhook validator succeeds exactly when the body's
`auth` string equals the MD5 hex digest of the request JSON re-serialized
compactly (separators "," and ":", i.e. byte-for-byte the convention shown
in the first conjunct) with the API key substituted into the `auth` field;
any mismatch raises AnymailWebhookValidationFailure. The comparison is
Django's `constant_time_compare`, functionally string equality (its
timing behaviour is outside this model). -/
theorem unisender_auth_validation :
    jdumpCompact (.jobj [("a", .jnum 1), ("auth", .jstr "x")]) =
      "\x7b\"a\":1,\"auth\":\"x\"\x7d"
    ∧ ∀ (apiKey : String) (md5hex : String → String) (body : JObj) (a : String),
        alookup body "auth" = some (.jstr a) →
        (unisenderGoValidateRequest apiKey md5hex body = .ok () ↔
          a = md5hex (jdumpCompact (.jobj (aset body "auth" (.jstr apiKey)))))
        ∧ (a ≠ md5hex (jdumpCompact (.jobj (aset body "auth" (.jstr apiKey)))) →
            unisenderGoValidateRequest apiKey md5hex body =
              .error .validationFailure) := by
  constructor
  · rfl
  · intro apiKey md5hex body a h
    constructor
    · by_cases heq : a = md5hex (jdumpCompact (.jobj (aset body "auth" (.jstr apiKey))))
      · simp [unisenderGoValidateRequest, h, heq, Except.bind, bind, pure, Except.pure]
      · simp [unisenderGoValidateRequest, h, heq, Except.bind, bind, pure, Except.pure]
    · intro hne
      simp [unisenderGoValidateRequest, h, hne, Except.bind, bind, pure, Except.pure]

/-- Witness for C7: a body whose `auth` field already equals the digest the
(concretely chosen) hash function yields validates successfully. -/
theorem unisender_auth_validation_witness :
    unisenderGoValidateRequest "key" (fun _ => "digest")
        [("auth", .jstr "digest")] = .ok () :=
  ((unisender_auth_validation.2 "key" (fun _ => "digest")
      [("auth", .jstr "digest")] "digest" rfl).1).mpr rfl

/-! ## Webhook signature validation: claim C6 -/

theorem cgiMetaKey_ne_header (name : String) :
    cgiMetaKey name ≠ "X-Twilio-Email-Event-Webhook-Signature" := by
  intro h
  have hd := congrArg String.data h
  have hH : (cgiMetaKey name).data.head? = some 'H' := rfl
  rw [hd] at hH
  exact absurd (Option.some.inj hH) (by decide)

theorem alookup_djangoMeta_sig_none (headers : List (String × String)) :
    alookup (djangoMeta headers) "X-Twilio-Email-Event-Webhook-Signature" = none := by
  induction headers with
  | nil => rfl
  | cons kv rest ih =>
    simp only [djangoMeta, List.map_cons, alookup]
    rw [if_neg (cgiMetaKey_ne_header kv.1)]
    exact ih

/-- C6: a webhook request whose signature is tampered with or invalid always
fails validation with AnymailWebhookValidationFailure. For SendGrid (with a
webhook key configured), validation fails for EVERY request arriving through
Django — the source reads the signature header out of `request.META` under
its hyphenated name, which Django never uses (headers live under
`HTTP_`-prefixed CGI keys), so the KeyError branch raises the "header
missing" validation failure before any verification; in particular every
tampered request fails. For MailPace, a missing header, an undecodable
base64 signature, and a signature the Ed25519 verifier rejects each raise
AnymailWebhookValidationFailure. -/
theorem webhook_invalid_signature_rejected :
    (∀ (headers : List (String × String)) (body : ByteStr)
        (verify : ByteStr → ByteStr → Bool) (b64decode : String → Option ByteStr),
        sendgridValidateRequest verify b64decode (djangoMeta headers) body =
          .error .validationFailure)
    ∧ (∀ (webhookKey : String) (verify : ByteStr → ByteStr → ByteStr → Bool)
        (b64decode : String → Option ByteStr) (headers : List (String × String))
        (body : ByteStr) (sigB64 : String) (sig keyBytes : ByteStr),
        alookup headers "X-MailPace-Signature" = some sigB64 →
        b64decode sigB64 = some sig →
        b64decode webhookKey = some keyBytes →
        verify keyBytes body sig = false →
        mailpaceValidateRequest webhookKey verify b64decode headers body =
          .error .validationFailure)
    ∧ (∀ (webhookKey : String) (verify : ByteStr → ByteStr → ByteStr → Bool)
        (b64decode : String → Option ByteStr) (headers : List (String × String))
        (body : ByteStr),
        alookup headers "X-MailPace-Signature" = none →
        mailpaceValidateRequest webhookKey verify b64decode headers body =
          .error .validationFailure)
    ∧ (∀ (webhookKey : String) (verify : ByteStr → ByteStr → ByteStr → Bool)
        (b64decode : String → Option ByteStr) (headers : List (String × String))
        (body : ByteStr) (sigB64 : String),
        alookup headers "X-MailPace-Signature" = some sigB64 →
        b64decode sigB64 = none →
        mailpaceValidateRequest webhookKey verify b64decode headers body =
          .error .validationFailure) := by
  refine ⟨?_, ?_, ?_, ?_⟩
  · intro headers body verify b64decode
    simp [sendgridValidateRequest, alookup_djangoMeta_sig_none headers,
      Except.bind, bind, pure, Except.pure]
  · intro webhookKey verify b64decode headers body sigB64 sig keyBytes h1 h2 h3 h4
    simp [mailpaceValidateRequest, h1, h2, h3, h4,
      Except.bind, bind, pure, Except.pure]
  · intro webhookKey verify b64decode headers body h1
    simp [mailpaceValidateRequest, h1, Except.bind, bind, pure, Except.pure]
  · intro webhookKey verify b64decode headers body sigB64 h1 h2
    simp [mailpaceValidateRequest, h1, h2, Except.bind, bind, pure, Except.pure]

/-- Witness for C6: a concrete Django request carrying a (tampered)
signature header fails SendGrid validation, and a concrete MailPace request
whose signature the verifier rejects fails MailPace validation. -/
theorem webhook_invalid_signature_rejected_witness :
    sendgridValidateRequest (fun _ _ => false) (fun _ => some [0])
        (djangoMeta [("X-Twilio-Email-Event-Webhook-Signature", "dGFtcGVyZWQ="),
                     ("X-Twilio-Email-Event-Webhook-Timestamp", "123")]) [1, 2] =
      .error .validationFailure
    ∧ mailpaceValidateRequest "a2V5" (fun _ _ _ => false) (fun _ => some [0])
        [("X-MailPace-Signature", "c2ln")] [1, 2] =
      .error .validationFailure :=
  ⟨webhook_invalid_signature_rejected.1
      [("X-Twilio-Email-Event-Webhook-Signature", "dGFtcGVyZWQ="),
       ("X-Twilio-Email-Event-Webhook-Timestamp", "123")] [1, 2]
      (fun _ _ => false) (fun _ => some [0]),
   webhook_invalid_signature_rejected.2.1 "a2V5" (fun _ _ _ => false)
      (fun _ => some [0]) [("X-MailPace-Signature", "c2ln")] [1, 2]
      "c2ln" [0] [0] rfl rfl rfl rfl⟩

/-! ## Event mappers and unknown event names: claim C9 -/

/-- C9: for each of the SendGrid, MailPace and Unisender Go tracking
mappers, an event whose provider-specific event/status name misses the fixed
lookup table maps — without raising — to a canonical event whose event_type
is `unknown`, for any otherwise well-formed event payload: the required
fields present with their expected shapes, and the external datetime
conversions (SendGrid's `fromtimestamp`, whose ValueError the source
catches; MailPace's `parse_datetime`; Unisender Go's `fromisoformat`) not
raising an exception the source leaves uncaught. -/
theorem unknown_event_names_map_to_unknown :
    (∀ (e : JObj) (s : String) (fromTimestamp : Int → Except PyErr Int),
        alookup e "event" = some (.jstr s) →
        alookup sendgridEventTypes s = none →
        (alookup e "timestamp" = none ∨
          ∃ n : Int, alookup e "timestamp" = some (.jnum n) ∧
            (fromTimestamp n = .error .valueErr ∨ ∃ dt, fromTimestamp n = .ok dt)) →
        exceptEventTypeSG (sendgridEspToAnymailEvent fromTimestamp e) = some .unknown)
    ∧ (∀ (e p : JObj) (s cs : String)
        (parseDatetime : String → Except PyErr (Option String))
        (dtv : Option String) (iv mv tv : JVal),
        alookup e "event" = some (.jstr s) →
        alookup mailpaceEventRecordTypes s = none →
        alookup e "payload" = some (.jobj p) →
        alookup p "created_at" = some (.jstr cs) →
        parseDatetime cs = .ok dtv →
        alookup p "id" = some iv →
        alookup p "message_id" = some mv →
        alookup p "to" = some tv →
        exceptEventTypeMP (mailpaceEspToAnymailEvent parseDatetime e) = some .unknown)
    ∧ (∀ (e d m : JObj) (nm s t dtv : String)
        (fromIso : String → Except PyErr String) (rv : JVal),
        alookup e "event_name" = some (.jstr nm) →
        nm ≠ "transactional_spam_block" →
        alookup e "event_data" = some (.jobj d) →
        alookup d "status" = some (.jstr s) →
        alookup unisenderEventTypes s = none →
        alookup d "event_time" = some (.jstr t) →
        fromIso t = .ok dtv →
        alookup d "metadata" = some (.jobj m) →
        (alookup d "delivery_info" = none ∨
          ∃ di, alookup d "delivery_info" = some (.jobj di) ∧
            (alookup di "delivery_status" = none ∨
              ∃ ds, alookup di "delivery_status" = some (.jstr ds))) →
        alookup d "email" = some rv →
        exceptEventTypeUG (unisenderEspToAnymailEvent fromIso e) = some .unknown) := by
  refine ⟨?_, ?_, ?_⟩
  · intro e s fromTimestamp h1 h2 htime
    have hsd : s ≠ "dropped" := by
      intro he
      subst he
      have : alookup sendgridEventTypes "dropped" = some .rejected := rfl
      rw [this] at h2
      exact Option.noConfusion h2
    rcases htime with ht | ⟨n, ht, hft | ⟨dt, hft⟩⟩ <;>
      simp [sendgridEspToAnymailEvent, exceptEventTypeSG, h1, h2, ht, hsd,
        Except.bind, bind, pure, Except.pure] <;>
      simp [hft]
  · intro e p s cs parseDatetime dtv iv mv tv h1 h2 h3 h4 hpd h5 h6 h7
    simp [mailpaceEspToAnymailEvent, exceptEventTypeMP, h1, h2, h3, h4, hpd,
      h5, h6, h7, Except.bind, bind, pure, Except.pure]
  · intro e d m nm s t dtv fromIso rv h1 h2 h3 h4 h5 h6 hiso h7 hdi h8
    rcases hdi with hd1 | ⟨di, hd1, hd2⟩
    · simp [unisenderEspToAnymailEvent, exceptEventTypeUG, h1, h2, h3, h4, h5, h6,
        hiso, h7, hd1, h8, alookup_nil, Except.bind, bind, pure, Except.pure]
    · rcases hd2 with hds | ⟨ds, hds⟩ <;>
        simp [unisenderEspToAnymailEvent, exceptEventTypeUG, h1, h2, h3, h4, h5,
          h6, hiso, h7, hd1, hds, h8, alookup_nil, Except.bind, bind, pure,
          Except.pure]

/-- Witness for C9: concrete well-formed events with unrecognized names for
each of the three mappers, with concrete non-raising datetime conversions. -/
theorem unknown_event_names_map_to_unknown_witness :
    exceptEventTypeSG (sendgridEspToAnymailEvent (fun n => .ok n)
        [("event", .jstr "weird"), ("email", .jstr "to@x.com"),
         ("timestamp", .jnum 1700000000)]) = some .unknown
    ∧ exceptEventTypeMP (mailpaceEspToAnymailEvent (fun s => .ok (some s))
        [("event", .jstr "email.weird"),
         ("payload", .jobj [("created_at", .jstr "2024-01-01T00:00:00Z"),
                            ("id", .jnum 1), ("message_id", .jstr "m"),
                            ("to", .jstr "to@x.com")])]) = some .unknown
    ∧ exceptEventTypeUG (unisenderEspToAnymailEvent (fun s => .ok s)
        [("event_name", .jstr "transactional_email_status"),
         ("event_data", .jobj [("status", .jstr "weird"),
                               ("event_time", .jstr "2015-11-30 15:09:42"),
                               ("metadata", .jobj []),
                               ("email", .jstr "r@x.com")])]) = some .unknown :=
  ⟨unknown_event_names_map_to_unknown.1 _ "weird" (fun n => .ok n) rfl rfl
     (Or.inr ⟨1700000000, rfl, Or.inr ⟨1700000000, rfl⟩⟩),
   unknown_event_names_map_to_unknown.2.1 _
     [("created_at", .jstr "2024-01-01T00:00:00Z"), ("id", .jnum 1),
      ("message_id", .jstr "m"), ("to", .jstr "to@x.com")]
     "email.weird" "2024-01-01T00:00:00Z" (fun s => .ok (some s))
     (some "2024-01-01T00:00:00Z") (.jnum 1) (.jstr "m")
     (.jstr "to@x.com") rfl rfl rfl rfl rfl rfl rfl rfl,
   unknown_event_names_map_to_unknown.2.2 _
     [("status", .jstr "weird"), ("event_time", .jstr "2015-11-30 15:09:42"),
      ("metadata", .jobj []), ("email", .jstr "r@x.com")]
     [] "transactional_email_status" "weird" "2015-11-30 15:09:42"
     "2015-11-30 15:09:42" (fun s => .ok s)
     (.jstr "r@x.com") rfl (by decide) rfl rfl rfl rfl rfl rfl (Or.inl rfl) rfl⟩

end Anymail
